import Mathlib

/-!
Shallow embedding of `src/utils/mongodb.js`: a process-wide MongoDB connection
manager with two cached globals (`cachedClient`, `cachedDb`), operations
`getMongoClient`, `getDatabase`, `getDonationCollection`, `createIndexes`,
`isValidObjectId`, `closeMongoConnection`.

Modelling conventions:
- A client handle is identified by a `Nat` (the order in which `new MongoClient`
  objects are constructed); `ProcState.nextClientId` is the identity the next
  constructed client object would receive.
- Every network call of the driver (`connect`, `admin().ping()`,
  `listCollections`, `createCollection`, `createIndex`, `close`) is recorded as a
  `NetEvent` in an event trace returned alongside the result, so "no network
  activity" is the trace being empty.
- The outcomes of driver calls are supplied by a `World` oracle: liveness of the
  `topology?.isConnected()` probe per client, success of connect/ping per
  constructed client, success of collection listing/creation, success of each
  `createIndex` call.
- JS exceptions are modelled with `Except`; `try/catch` blocks become explicit
  branching on the error component.
- The remote database's observable state (which collections exist, which indexes
  have been created) is a `Remote` record threaded through
  `getDonationCollection`.
-/

namespace Mongodb

/-- JavaScript runtime values, as far as `isValidObjectId` can distinguish them
(`typeof id === 'string'` plus the regex test on the string payload). -/
inductive JSValue where
  | str (s : String)
  | num (n : Int)
  | boolean (b : Bool)
  | null
  | undef
  | object
deriving DecidableEq, Repr

/-- Character class `[0-9a-fA-F]` of the regex in `isValidObjectId`. -/
def isHexChar (c : Char) : Bool :=
  (decide ('0' ≤ c) && decide (c ≤ '9')) ||
    (decide ('a' ≤ c) && decide (c ≤ 'f')) ||
    (decide ('A' ≤ c) && decide (c ≤ 'F'))

/-- `isValidObjectId(id)` from the source:
`typeof id === 'string' && /^[0-9a-fA-F]{24}$/.test(id)`.
The anchored regex with a `{24}` repetition holds exactly when the string has
24 characters, all in the class `[0-9a-fA-F]`. -/
def isValidObjectId : JSValue → Bool
  | JSValue.str s => s.length == 24 && s.data.all isHexChar
  | _ => false

/-- Spec-side notion of a hexadecimal character: a digit, or a letter
a-f in either case. -/
def IsHexDigit (c : Char) : Prop :=
  ('0' ≤ c ∧ c ≤ '9') ∨ ('a' ≤ c ∧ c ≤ 'f') ∨ ('A' ≤ c ∧ c ≤ 'F')

/-- Direction / kind of a single key in a MongoDB index specification:
`1` (ascending), `-1` (descending) or `'text'`. -/
inductive IndexDir where
  | asc
  | desc
  | text
deriving DecidableEq, Repr

/-- One `createIndex(keys, options)` argument pair from the source. -/
structure IndexSpec where
  keys : List (String × IndexDir)
  unique : Bool := false
  sparse : Bool := false
  weights : List (String × Nat) := []
deriving DecidableEq, Repr

def idxSubmittedAt : IndexSpec := { keys := [("submittedAt", IndexDir.desc)] }
def idxName : IndexSpec := { keys := [("name", IndexDir.asc)] }
def idxProject : IndexSpec := { keys := [("project", IndexDir.asc)] }
def idxPayment : IndexSpec := { keys := [("payment", IndexDir.asc)] }
def idxLocalId : IndexSpec :=
  { keys := [("localId", IndexDir.asc)], unique := true, sparse := true }
def idxDeviceId : IndexSpec := { keys := [("deviceId", IndexDir.asc)] }
def idxBatchId : IndexSpec := { keys := [("batchId", IndexDir.asc)] }
def idxText : IndexSpec :=
  { keys := [("name", IndexDir.text), ("project", IndexDir.text),
             ("content", IndexDir.text), ("contact", IndexDir.text)],
    weights := [("name", 10), ("project", 5), ("content", 3), ("contact", 2)] }

/-- The eight `createIndex` calls of `createIndexes`, in source order. -/
def indexSpecs : List IndexSpec :=
  [idxSubmittedAt, idxName, idxProject, idxPayment,
   idxLocalId, idxDeviceId, idxBatchId, idxText]

/-- The environment object `env`: the three configuration keys the module
reads, each possibly absent. -/
structure Env where
  MONGODB_URI : Option String
  DATABASE_NAME : Option String
  COLLECTION_NAME : Option String
deriving DecidableEq, Repr

/-- The distinct `throw` sites that can propagate out of the module. -/
inductive MongoError where
  | configMissingUri
  | connectFailed
  | pingFailed
  | listCollectionsFailed
  | createCollectionFailed
deriving DecidableEq, Repr

/-- `client.db(dbName)` result: a handle scoped to a database name, backed by a
client. -/
structure DbHandle where
  clientId : Nat
  dbName : String
deriving DecidableEq, Repr

/-- `db.collection(name)` result. -/
structure CollHandle where
  db : DbHandle
  collName : String
deriving DecidableEq, Repr

/-- The module-level mutable state: `cachedClient`, `cachedDb`, plus the
identity the next constructed client object would receive. -/
structure ProcState where
  cachedClient : Option Nat
  cachedDb : Option DbHandle
  nextClientId : Nat
deriving DecidableEq, Repr

/-- State at module load: `cachedClient = null`, `cachedDb = null`. -/
def initState : ProcState :=
  { cachedClient := none, cachedDb := none, nextClientId := 0 }

/-- Network events, one per driver call that goes over the wire. -/
inductive NetEvent where
  | connect (clientId : Nat)
  | ping (clientId : Nat)
  | listCollections (collName : String)
  | createCollection (collName : String)
  | createIndex (collName : String) (spec : IndexSpec)
  | close (clientId : Nat)
deriving DecidableEq, Repr

/-- Driver oracle: outcome of each network call and of the liveness probe.
`isConnected c` is the value of `cachedClient.topology?.isConnected()` for
client `c` (an absent `topology` reads as `false` through the optional
chaining); `connectOk c` / `pingOk c` tell whether `client.connect()` /
`admin().ping()` succeed for the client constructed with identity `c`;
`closeOk c` tells whether `client.close()` succeeds; `listCollectionsOk` and
`createCollectionOk` cover the collection provisioning calls, and
`indexOk collName spec` each individual `createIndex`. -/
structure World where
  isConnected : Nat → Bool
  connectOk : Nat → Bool
  pingOk : Nat → Bool
  closeOk : Nat → Bool
  listCollectionsOk : Bool
  createCollectionOk : Bool
  indexOk : String → IndexSpec → Bool

/-- Observable state of the remote database: which collections exist and which
indexes have been created (collection name paired with the index spec). -/
structure Remote where
  collections : List String
  indexes : List (String × IndexSpec)
deriving DecidableEq, Repr

def emptyRemote : Remote := { collections := [], indexes := [] }

/-- The `try` body of `getMongoClient` together with its `catch`: validate the
URI, construct a client, `connect()`, `ping()`; on success store the client in
the cache; on any failure the `catch` sets `cachedClient = null` and rethrows.
Constructing the client consumes the next client identity; the URI check
happens before construction. -/
def getMongoClientFresh (w : World) (env : Env) (s : ProcState) :
    Except MongoError Nat × ProcState × List NetEvent :=
  match env.MONGODB_URI with
  | none =>
      (Except.error MongoError.configMissingUri,
        { s with cachedClient := none }, [])
  | some _ =>
      let c := s.nextClientId
      if w.connectOk c then
        if w.pingOk c then
          (Except.ok c,
            { s with cachedClient := some c, nextClientId := c + 1 },
            [NetEvent.connect c, NetEvent.ping c])
        else
          (Except.error MongoError.pingFailed,
            { s with cachedClient := none, nextClientId := c + 1 },
            [NetEvent.connect c, NetEvent.ping c])
      else
        (Except.error MongoError.connectFailed,
          { s with cachedClient := none, nextClientId := c + 1 },
          [NetEvent.connect c])

/-- `getMongoClient(env)`: if a cached client exists and its topology probe
reports it connected, return it with no network activity; otherwise run the
connect body. -/
def getMongoClient (w : World) (env : Env) (s : ProcState) :
    Except MongoError Nat × ProcState × List NetEvent :=
  match s.cachedClient with
  | some c =>
      if w.isConnected c then (Except.ok c, s, [])
      else getMongoClientFresh w env s
  | none => getMongoClientFresh w env s

/-- `getDatabase(env)`: resolve the client, then return `cachedDb` if set, else
derive `client.db(dbName)` (with default name `donation_system`) and cache it.
The surrounding try/catch only logs and rethrows. -/
def getDatabase (w : World) (env : Env) (s : ProcState) :
    Except MongoError DbHandle × ProcState × List NetEvent :=
  match getMongoClient w env s with
  | (Except.error e, s1, evs) => (Except.error e, s1, evs)
  | (Except.ok c, s1, evs) =>
      match s1.cachedDb with
      | some d => (Except.ok d, s1, evs)
      | none =>
          let d : DbHandle :=
            { clientId := c, dbName := env.DATABASE_NAME.getD "donation_system" }
          (Except.ok d, { s1 with cachedDb := some d }, evs)

/-- The body of `createIndexes`: the given `createIndex` calls are awaited
sequentially inside one `try`; the first failing call jumps to the `catch`,
which logs a warning and returns normally, so the calls after the failing one
are never attempted. Successful calls append their index to the remote state. -/
def runCreateIndexes (w : World) (collName : String) :
    List IndexSpec → Remote → Remote × List NetEvent
  | [], r => (r, [])
  | spec :: rest, r =>
      if w.indexOk collName spec then
        let step := runCreateIndexes w collName rest
          { r with indexes := r.indexes ++ [(collName, spec)] }
        (step.1, NetEvent.createIndex collName spec :: step.2)
      else
        (r, [NetEvent.createIndex collName spec])

/-- `createIndexes(collection)` from the source: the eight index creations of
`indexSpecs` run sequentially under a single try/catch; failures are logged,
never rethrown. -/
def createIndexes (w : World) (collName : String) (r : Remote) :
    Remote × List NetEvent :=
  runCreateIndexes w collName indexSpecs r

/-- `getDonationCollection(env)`: resolve the database, list collections
filtered by the configured name (default `donations`); if absent, create the
collection and provision indexes; return `db.collection(name)`. The try/catch
only logs and rethrows. -/
def getDonationCollection (w : World) (env : Env) (s : ProcState) (r : Remote) :
    Except MongoError CollHandle × ProcState × Remote × List NetEvent :=
  match getDatabase w env s with
  | (Except.error e, s1, evs) => (Except.error e, s1, r, evs)
  | (Except.ok d, s1, evs) =>
      let collName := env.COLLECTION_NAME.getD "donations"
      if w.listCollectionsOk then
        if r.collections.contains collName then
          (Except.ok { db := d, collName := collName }, s1, r,
            evs ++ [NetEvent.listCollections collName])
        else
          if w.createCollectionOk then
            let r1 : Remote := { r with collections := r.collections ++ [collName] }
            let step := createIndexes w collName r1
            (Except.ok { db := d, collName := collName }, s1, step.1,
              evs ++ [NetEvent.listCollections collName,
                      NetEvent.createCollection collName] ++ step.2)
          else
            (Except.error MongoError.createCollectionFailed, s1, r,
              evs ++ [NetEvent.listCollections collName,
                      NetEvent.createCollection collName])
      else
        (Except.error MongoError.listCollectionsFailed, s1, r,
          evs ++ [NetEvent.listCollections collName])

/-- `closeMongoConnection()`: when a cached client exists, `close()` it inside
try/catch/finally — success logs, failure only logs the error, and the
`finally` clears both `cachedClient` and `cachedDb` either way; when no cached
client exists nothing happens at all. -/
def closeMongoConnection (w : World) (s : ProcState) : ProcState × List NetEvent :=
  match s.cachedClient with
  | none => (s, [])
  | some c =>
      if w.closeOk c then
        ({ s with cachedClient := none, cachedDb := none }, [NetEvent.close c])
      else
        ({ s with cachedClient := none, cachedDb := none }, [NetEvent.close c])

/-- Iterated calls to `getMongoClient` with a fixed environment, collecting
each call's result and event trace. -/
def getClientTrace (w : World) (env : Env) :
    Nat → ProcState → List (Except MongoError Nat × List NetEvent)
  | 0, _ => []
  | n + 1, s =>
      let step := getMongoClient w env s
      (step.1, step.2.2) :: getClientTrace w env n step.2.1

/-- A driver oracle in which every network call succeeds and every client
reports itself connected. -/
def wAll : World :=
  { isConnected := fun _ => true
    connectOk := fun _ => true
    pingOk := fun _ => true
    closeOk := fun _ => true
    listCollectionsOk := true
    createCollectionOk := true
    indexOk := fun _ _ => true }

/-- A configuration with the URI present and the optional names absent. -/
def envFull : Env :=
  { MONGODB_URI := some "mongodb://localhost"
    DATABASE_NAME := none
    COLLECTION_NAME := none }

theorem isHexChar_iff (c : Char) : isHexChar c = true ↔ IsHexDigit c := by
  simp [isHexChar, IsHexDigit, or_assoc]

/-- Claim C9: `isValidObjectId` is a pure predicate returning `true` exactly on
strings of 24 hexadecimal characters (digits and letters a-f in either case),
and `false` on every other value, in particular on shorter or longer strings,
strings with non-hex characters, and non-string inputs. -/
theorem isValidObjectId_iff (v : JSValue) :
    isValidObjectId v = true ↔
      ∃ s, v = JSValue.str s ∧ s.length = 24 ∧ ∀ c ∈ s.data, IsHexDigit c := by
  cases v with
  | str s =>
      simp only [isValidObjectId, Bool.and_eq_true, beq_iff_eq, List.all_eq_true]
      constructor
      · rintro ⟨hlen, hhex⟩
        exact ⟨s, rfl, hlen, fun c hc => (isHexChar_iff c).mp (hhex c hc)⟩
      · rintro ⟨t, ht, hlen, hhex⟩
        cases ht
        exact ⟨hlen, fun c hc => (isHexChar_iff c).mpr (hhex c hc)⟩
  | num n => simp [isValidObjectId]
  | boolean b => simp [isValidObjectId]
  | null => simp [isValidObjectId]
  | undef => simp [isValidObjectId]
  | object => simp [isValidObjectId]

theorem getMongoClient_cached_live (w : World) (env : Env) (s : ProcState)
    (c : Nat) (hs : s.cachedClient = some c) (hlive : w.isConnected c = true) :
    getMongoClient w env s = (Except.ok c, s, []) := by
  simp [getMongoClient, hs, hlive]

theorem getClientTrace_cached (w : World) (env : Env) (c : Nat)
    (hlive : w.isConnected c = true) :
    ∀ (n : Nat) (s : ProcState), s.cachedClient = some c →
      getClientTrace w env n s = List.replicate n (Except.ok c, []) := by
  intro n
  induction n with
  | zero => intro s _; rfl
  | succ k ih =>
      intro s hs
      rw [getClientTrace, getMongoClient_cached_live w env s c hs hlive]
      simp only [List.replicate]
      exact congrArg _ (ih s hs)

/-- Claim C1: from a fresh module state with a valid configuration, in a world
where the first constructed client connects, pings and keeps reporting itself
connected, a sequence of `n + 1` calls to `getMongoClient` produces exactly one
`connect` (and one `ping`) on the first call, and every subsequent call returns
the same cached client with an empty network trace. -/
theorem getMongoClient_cached_no_reconnect
    (w : World) (env : Env) (u : String) (n : Nat)
    (huri : env.MONGODB_URI = some u)
    (hconn : w.connectOk 0 = true) (hping : w.pingOk 0 = true)
    (hlive : w.isConnected 0 = true) :
    getClientTrace w env (n + 1) initState =
      (Except.ok 0, [NetEvent.connect 0, NetEvent.ping 0]) ::
        List.replicate n (Except.ok 0, []) := by
  have hfirst : getMongoClient w env initState =
      (Except.ok 0,
        { cachedClient := some 0, cachedDb := none, nextClientId := 1 },
        [NetEvent.connect 0, NetEvent.ping 0]) := by
    simp [getMongoClient, getMongoClientFresh, initState, huri, hconn, hping]
  rw [getClientTrace, hfirst]
  exact congrArg _ (getClientTrace_cached w env 0 hlive n _ rfl)

/-- Witness for C1 at a concrete world, configuration and call count. -/
theorem getMongoClient_cached_no_reconnect_witness :
    getClientTrace wAll envFull 3 initState =
      (Except.ok 0, [NetEvent.connect 0, NetEvent.ping 0]) ::
        List.replicate 2 (Except.ok 0, []) :=
  getMongoClient_cached_no_reconnect wAll envFull "mongodb://localhost" 2
    rfl rfl rfl rfl

theorem getMongoClient_not_live (w : World) (env : Env) (s : ProcState)
    (hstale : ∀ c, s.cachedClient = some c → w.isConnected c = false) :
    getMongoClient w env s = getMongoClientFresh w env s := by
  cases hs : s.cachedClient with
  | none => simp [getMongoClient, hs]
  | some c => simp [getMongoClient, hs, hstale c hs]

theorem getMongoClientFresh_connects (w : World) (env : Env) (s : ProcState)
    (u : String) (huri : env.MONGODB_URI = some u) :
    ∃ tail, (getMongoClientFresh w env s).2.2 =
      NetEvent.connect s.nextClientId :: tail := by
  cases hc : w.connectOk s.nextClientId with
  | false => exact ⟨[], by simp [getMongoClientFresh, huri, hc]⟩
  | true =>
      cases hp : w.pingOk s.nextClientId with
      | false =>
          exact ⟨[NetEvent.ping s.nextClientId],
            by simp [getMongoClientFresh, huri, hc, hp]⟩
      | true =>
          exact ⟨[NetEvent.ping s.nextClientId],
            by simp [getMongoClientFresh, huri, hc, hp]⟩

/-- A configuration in which `MONGODB_URI` is absent. -/
def envNone : Env :=
  { MONGODB_URI := none, DATABASE_NAME := none, COLLECTION_NAME := none }

/-- Claim C2: when the liveness probe does not rescue a cached client and the
connect or the ping of the freshly constructed client fails, `getMongoClient`
propagates an error, leaves `cachedClient` empty, and any subsequent call under
the same configuration re-attempts a fresh connect (its trace starts with a
`connect` of a newly constructed client) instead of returning a broken handle. -/
theorem getMongoClient_failure_clears_cache
    (w : World) (env : Env) (u : String) (s : ProcState)
    (huri : env.MONGODB_URI = some u)
    (hstale : ∀ c, s.cachedClient = some c → w.isConnected c = false)
    (hfail : w.connectOk s.nextClientId = false ∨
      w.pingOk s.nextClientId = false) :
    (∃ e, (getMongoClient w env s).1 = Except.error e) ∧
    (getMongoClient w env s).2.1.cachedClient = none ∧
    ∀ w2 : World, ∃ tail,
      (getMongoClient w2 env (getMongoClient w env s).2.1).2.2 =
        NetEvent.connect (s.nextClientId + 1) :: tail := by
  rw [getMongoClient_not_live w env s hstale]
  cases hc : w.connectOk s.nextClientId with
  | false =>
      have hres : getMongoClientFresh w env s =
          (Except.error MongoError.connectFailed,
            { s with cachedClient := none, nextClientId := s.nextClientId + 1 },
            [NetEvent.connect s.nextClientId]) := by
        simp [getMongoClientFresh, huri, hc]
      rw [hres]
      refine ⟨⟨MongoError.connectFailed, rfl⟩, rfl, fun w2 => ?_⟩
      have hnext := getMongoClientFresh_connects w2 env
        { s with cachedClient := none, nextClientId := s.nextClientId + 1 } u huri
      simpa [getMongoClient] using hnext
  | true =>
      have hp : w.pingOk s.nextClientId = false := by
        rcases hfail with hf | hp
        · rw [hc] at hf; cases hf
        · exact hp
      have hres : getMongoClientFresh w env s =
          (Except.error MongoError.pingFailed,
            { s with cachedClient := none, nextClientId := s.nextClientId + 1 },
            [NetEvent.connect s.nextClientId, NetEvent.ping s.nextClientId]) := by
        simp [getMongoClientFresh, huri, hc, hp]
      rw [hres]
      refine ⟨⟨MongoError.pingFailed, rfl⟩, rfl, fun w2 => ?_⟩
      have hnext := getMongoClientFresh_connects w2 env
        { s with cachedClient := none, nextClientId := s.nextClientId + 1 } u huri
      simpa [getMongoClient] using hnext

/-- A driver oracle in which every connect attempt fails. -/
def wNoConnect : World :=
  { wAll with connectOk := fun _ => false }

/-- Witness for C2: a failing connect from the fresh module state. -/
theorem getMongoClient_failure_clears_cache_witness :
    (∃ e, (getMongoClient wNoConnect envFull initState).1 = Except.error e) ∧
    (getMongoClient wNoConnect envFull initState).2.1.cachedClient = none ∧
    ∀ w2 : World, ∃ tail,
      (getMongoClient w2 envFull
          (getMongoClient wNoConnect envFull initState).2.1).2.2 =
        NetEvent.connect 1 :: tail :=
  getMongoClient_failure_clears_cache wNoConnect envFull "mongodb://localhost"
    initState rfl (fun c h => by simp [initState] at h) (Or.inl rfl)

/-- Claim C6: with `MONGODB_URI` absent and no live cached client,
`getMongoClient` fails with the configuration error, the network trace is
empty (no connect, no ping), and no client object is constructed
(`nextClientId` is unchanged; the catch clears `cachedClient`). -/
theorem getMongoClient_missing_uri
    (w : World) (env : Env) (s : ProcState)
    (huri : env.MONGODB_URI = none)
    (hstale : ∀ c, s.cachedClient = some c → w.isConnected c = false) :
    getMongoClient w env s =
      (Except.error MongoError.configMissingUri,
        { s with cachedClient := none }, []) := by
  rw [getMongoClient_not_live w env s hstale]
  simp [getMongoClientFresh, huri]

/-- Witness for C6 at the fresh module state. -/
theorem getMongoClient_missing_uri_witness :
    getMongoClient wAll envNone initState =
      (Except.error MongoError.configMissingUri,
        { initState with cachedClient := none }, []) :=
  getMongoClient_missing_uri wAll envNone initState rfl
    (fun c h => by simp [initState] at h)

theorem getMongoClientFresh_frame (w : World) (env : Env) (s : ProcState)
    (e : MongoError)
    (hfail : (getMongoClientFresh w env s).1 = Except.error e) :
    (getMongoClientFresh w env s).2.1.cachedDb = s.cachedDb ∧
    (getMongoClientFresh w env s).2.1.cachedClient = none := by
  cases huri : env.MONGODB_URI with
  | none => simp [getMongoClientFresh, huri]
  | some u =>
      cases hc : w.connectOk s.nextClientId with
      | false => simp [getMongoClientFresh, huri, hc]
      | true =>
          cases hp : w.pingOk s.nextClientId with
          | false => simp [getMongoClientFresh, huri, hc, hp]
          | true =>
              exfalso
              simp [getMongoClientFresh, huri, hc, hp] at hfail

/-- Claim C10: a failing `getMongoClient` clears `cachedClient` but leaves
`cachedDb` exactly as it was before the call — the database-handle cache is not
scrubbed in the same operation, so a handle derived from the now-invalidated
client can persist in the cache. -/
theorem getMongoClient_failure_preserves_cachedDb
    (w : World) (env : Env) (s : ProcState) (e : MongoError)
    (hfail : (getMongoClient w env s).1 = Except.error e) :
    (getMongoClient w env s).2.1.cachedDb = s.cachedDb ∧
    (getMongoClient w env s).2.1.cachedClient = none := by
  cases hs : s.cachedClient with
  | none =>
      have heq : getMongoClient w env s = getMongoClientFresh w env s := by
        simp [getMongoClient, hs]
      rw [heq] at hfail ⊢
      exact getMongoClientFresh_frame w env s e hfail
  | some c =>
      cases hl : w.isConnected c with
      | true =>
          exfalso
          rw [getMongoClient_cached_live w env s c hs hl] at hfail
          exact Except.noConfusion hfail
      | false =>
          have heq : getMongoClient w env s = getMongoClientFresh w env s := by
            simp [getMongoClient, hs, hl]
          rw [heq] at hfail ⊢
          exact getMongoClientFresh_frame w env s e hfail

/-- Witness for C10: a failing call (missing URI) against a state that holds a
stale database handle; the handle survives the call in the cache. -/
theorem getMongoClient_failure_preserves_cachedDb_witness :
    (getMongoClient wAll envNone
        { cachedClient := none,
          cachedDb := some { clientId := 0, dbName := "donation_system" },
          nextClientId := 1 }).2.1.cachedDb =
      some { clientId := 0, dbName := "donation_system" } ∧
    (getMongoClient wAll envNone
        { cachedClient := none,
          cachedDb := some { clientId := 0, dbName := "donation_system" },
          nextClientId := 1 }).2.1.cachedClient = none :=
  getMongoClient_failure_preserves_cachedDb wAll envNone
    { cachedClient := none,
      cachedDb := some { clientId := 0, dbName := "donation_system" },
      nextClientId := 1 }
    MongoError.configMissingUri rfl

/-- Claim C7: when a cached client exists, `closeMongoConnection` closes it and
— regardless of the close outcome, which the statement quantifies over through
`w` — clears both `cachedClient` and `cachedDb`, after which the next
`getMongoClient` under a present URI performs a fresh connect; when no cached
client exists the call is a no-op. -/
theorem closeMongoConnection_scoped_teardown (w : World) (s : ProcState) :
    (∀ c, s.cachedClient = some c →
      closeMongoConnection w s =
        ({ s with cachedClient := none, cachedDb := none },
          [NetEvent.close c]) ∧
      ∀ (w2 : World) (env : Env) (u : String), env.MONGODB_URI = some u →
        ∃ tail, (getMongoClient w2 env (closeMongoConnection w s).1).2.2 =
          NetEvent.connect s.nextClientId :: tail) ∧
    (s.cachedClient = none → closeMongoConnection w s = (s, [])) := by
  constructor
  · intro c hc
    have hres : closeMongoConnection w s =
        ({ s with cachedClient := none, cachedDb := none },
          [NetEvent.close c]) := by
      cases hk : w.closeOk c with
      | false => simp [closeMongoConnection, hc, hk]
      | true => simp [closeMongoConnection, hc, hk]
    refine ⟨hres, fun w2 env u huri => ?_⟩
    rw [hres]
    have hnext := getMongoClientFresh_connects w2 env
      { s with cachedClient := none, cachedDb := none } u huri
    simpa [getMongoClient] using hnext
  · intro hc
    simp [closeMongoConnection, hc]

/-- Witness for C7: teardown of a concrete cached state, and the no-op case at
the fresh module state. -/
theorem closeMongoConnection_scoped_teardown_witness :
    closeMongoConnection wAll
        { cachedClient := some 3,
          cachedDb := some { clientId := 3, dbName := "donation_system" },
          nextClientId := 4 } =
      ({ cachedClient := none, cachedDb := none, nextClientId := 4 },
        [NetEvent.close 3]) ∧
    closeMongoConnection wAll initState = (initState, []) :=
  ⟨((closeMongoConnection_scoped_teardown wAll
      { cachedClient := some 3,
        cachedDb := some { clientId := 3, dbName := "donation_system" },
        nextClientId := 4 }).1 3 rfl).1,
    (closeMongoConnection_scoped_teardown wAll initState).2 rfl⟩

theorem getMongoClientFresh_cachedDb (w : World) (env : Env) (s : ProcState) :
    (getMongoClientFresh w env s).2.1.cachedDb = s.cachedDb := by
  cases huri : env.MONGODB_URI with
  | none => simp [getMongoClientFresh, huri]
  | some u =>
      cases hc : w.connectOk s.nextClientId with
      | false => simp [getMongoClientFresh, huri, hc]
      | true =>
          cases hp : w.pingOk s.nextClientId with
          | false => simp [getMongoClientFresh, huri, hc, hp]
          | true => simp [getMongoClientFresh, huri, hc, hp]

theorem getMongoClient_cachedDb (w : World) (env : Env) (s : ProcState) :
    (getMongoClient w env s).2.1.cachedDb = s.cachedDb := by
  cases hs : s.cachedClient with
  | none =>
      have heq : getMongoClient w env s = getMongoClientFresh w env s := by
        simp [getMongoClient, hs]
      rw [heq, getMongoClientFresh_cachedDb]
  | some c =>
      cases hl : w.isConnected c with
      | true => rw [getMongoClient_cached_live w env s c hs hl]
      | false =>
          have heq : getMongoClient w env s = getMongoClientFresh w env s := by
            simp [getMongoClient, hs, hl]
          rw [heq, getMongoClientFresh_cachedDb]

/-- Claim C8: once a database handle is cached, `getDatabase` leaves it in the
cache unchanged and, whenever it succeeds, returns exactly that handle — for
every environment, in particular when `DATABASE_NAME` differs from the name
used at first derivation. -/
theorem getDatabase_first_caller_wins
    (w : World) (env : Env) (s : ProcState) (d : DbHandle)
    (hdb : s.cachedDb = some d) :
    (getDatabase w env s).2.1.cachedDb = some d ∧
    ∀ x, (getDatabase w env s).1 = Except.ok x → x = d := by
  have hpres : (getMongoClient w env s).2.1.cachedDb = some d := by
    rw [getMongoClient_cachedDb]; exact hdb
  rcases hg : getMongoClient w env s with ⟨res, s1, evs⟩
  rw [hg] at hpres
  cases res with
  | error e => simp [getDatabase, hg]; simpa using hpres
  | ok c =>
      simp only at hpres
      simp [getDatabase, hg, hpres]

/-- A configuration whose database name differs from the one a cached handle
was derived with. -/
def envOther : Env :=
  { MONGODB_URI := some "mongodb://localhost"
    DATABASE_NAME := some "other"
    COLLECTION_NAME := none }

/-- Witness for C8: a cached handle named `donation_system` survives a call
configured with database name `other`. -/
theorem getDatabase_first_caller_wins_witness :
    (getDatabase wAll envOther
        { cachedClient := some 0,
          cachedDb := some { clientId := 0, dbName := "donation_system" },
          nextClientId := 1 }).2.1.cachedDb =
      some { clientId := 0, dbName := "donation_system" } ∧
    ({ clientId := 0, dbName := "donation_system" } : DbHandle) =
      { clientId := 0, dbName := "donation_system" } :=
  ⟨(getDatabase_first_caller_wins wAll envOther
      { cachedClient := some 0,
        cachedDb := some { clientId := 0, dbName := "donation_system" },
        nextClientId := 1 }
      { clientId := 0, dbName := "donation_system" } rfl).1,
    (getDatabase_first_caller_wins wAll envOther
      { cachedClient := some 0,
        cachedDb := some { clientId := 0, dbName := "donation_system" },
        nextClientId := 1 }
      { clientId := 0, dbName := "donation_system" } rfl).2
      { clientId := 0, dbName := "donation_system" } rfl⟩

theorem runCreateIndexes_all_ok (w : World) (collName : String) :
    ∀ (specs : List IndexSpec) (r : Remote),
      (∀ sp ∈ specs, w.indexOk collName sp = true) →
      runCreateIndexes w collName specs r =
        ({ r with
            indexes := r.indexes ++ specs.map (fun sp => (collName, sp)) },
          specs.map (NetEvent.createIndex collName)) := by
  intro specs
  induction specs with
  | nil => intro r _; simp [runCreateIndexes]
  | cons sp rest ih =>
      intro r h
      have hsp : w.indexOk collName sp = true := h sp (by simp)
      have hrest : ∀ x ∈ rest, w.indexOk collName x = true :=
        fun x hx => h x (by simp [hx])
      simp [runCreateIndexes, hsp, ih _ hrest]

theorem runCreateIndexes_first_failure_stops (w : World) (collName : String) :
    ∀ (specs : List IndexSpec) (r : Remote),
      runCreateIndexes w collName specs r =
        ({ r with
            indexes := r.indexes ++
              (specs.takeWhile (fun sp => w.indexOk collName sp)).map
                (fun sp => (collName, sp)) },
          (specs.takeWhile (fun sp => w.indexOk collName sp)).map
              (NetEvent.createIndex collName) ++
            ((specs.dropWhile (fun sp => w.indexOk collName sp)).take 1).map
              (NetEvent.createIndex collName)) := by
  intro specs
  induction specs with
  | nil => intro r; simp [runCreateIndexes]
  | cons sp rest ih =>
      intro r
      cases hsp : w.indexOk collName sp with
      | true =>
          simp [runCreateIndexes, hsp, ih, List.takeWhile_cons,
            List.dropWhile_cons]
      | false =>
          simp [runCreateIndexes, hsp, List.takeWhile_cons,
            List.dropWhile_cons]

/-- Claim C4 (amended): the eight index creations run sequentially inside a
single try/catch, so the trace consists of the successful run up to the first
failing `createIndex` plus that failing call itself; everything after the first
failure is skipped, and only the indexes before it are created. -/
theorem createIndexes_stops_at_first_failure
    (w : World) (collName : String) (r : Remote) :
    createIndexes w collName r =
      ({ r with
          indexes := r.indexes ++
            (indexSpecs.takeWhile (fun sp => w.indexOk collName sp)).map
              (fun sp => (collName, sp)) },
        (indexSpecs.takeWhile (fun sp => w.indexOk collName sp)).map
            (NetEvent.createIndex collName) ++
          ((indexSpecs.dropWhile (fun sp => w.indexOk collName sp)).take 1).map
            (NetEvent.createIndex collName)) :=
  runCreateIndexes_first_failure_stops w collName indexSpecs r

/-- A driver oracle in which exactly one index creation — the `submittedAt`
index, first in source order — fails. -/
def wFirstIdxFails : World :=
  { wAll with indexOk := fun _ sp => decide (sp ≠ idxSubmittedAt) }

/-- Counterexample to C4 as stated: when only the `submittedAt` index creation
fails, the remaining seven `createIndex` calls are never attempted — the trace
stops at the failing call and no index at all is created — even though, for
example, the `name` index's own creation would have succeeded. -/
theorem createIndexes_not_independent :
    wFirstIdxFails.indexOk "donations" idxName = true ∧
    createIndexes wFirstIdxFails "donations" emptyRemote =
      (emptyRemote, [NetEvent.createIndex "donations" idxSubmittedAt]) := by
  refine ⟨rfl, ?_⟩
  rfl

/-- Claim C5: whenever the client resolution, the collection listing and the
collection creation succeed, `getDonationCollection` returns the collection
handle no matter which `createIndex` calls fail — the world's `indexOk` oracle
is unconstrained, and index failures are swallowed inside `createIndexes`. -/
theorem getDonationCollection_returns_despite_index_failures
    (w : World) (env : Env) (u : String) (r : Remote)
    (huri : env.MONGODB_URI = some u)
    (hconn : w.connectOk 0 = true) (hping : w.pingOk 0 = true)
    (hlist : w.listCollectionsOk = true)
    (hcoll : w.createCollectionOk = true) :
    (getDonationCollection w env initState r).1 =
      Except.ok
        { db := { clientId := 0,
                  dbName := env.DATABASE_NAME.getD "donation_system" },
          collName := env.COLLECTION_NAME.getD "donations" } := by
  have hcl : getMongoClient w env initState =
      (Except.ok 0,
        { cachedClient := some 0, cachedDb := none, nextClientId := 1 },
        [NetEvent.connect 0, NetEvent.ping 0]) := by
    simp [getMongoClient, getMongoClientFresh, initState, huri, hconn, hping]
  have hdb : getDatabase w env initState =
      (Except.ok
          { clientId := 0,
            dbName := env.DATABASE_NAME.getD "donation_system" },
        { cachedClient := some 0,
          cachedDb := some
            { clientId := 0,
              dbName := env.DATABASE_NAME.getD "donation_system" },
          nextClientId := 1 },
        [NetEvent.connect 0, NetEvent.ping 0]) := by
    simp [getDatabase, hcl]
  cases hmem : r.collections.contains (env.COLLECTION_NAME.getD "donations") with
  | true =>
      have hmem2 : env.COLLECTION_NAME.getD "donations" ∈ r.collections := by
        simpa using hmem
      simp [getDonationCollection, hdb, hlist, hmem2]
  | false =>
      have hmem2 : ¬ env.COLLECTION_NAME.getD "donations" ∈ r.collections := by
        simpa using hmem
      simp [getDonationCollection, hdb, hlist, hmem2, hcoll]

/-- A driver oracle in which every index creation fails. -/
def wIdxAllFail : World :=
  { wAll with indexOk := fun _ _ => false }

/-- Witness for C5: with every `createIndex` failing, the caller still receives
the collection handle. -/
theorem getDonationCollection_returns_despite_index_failures_witness :
    (getDonationCollection wIdxAllFail envFull initState emptyRemote).1 =
      Except.ok
        { db := { clientId := 0, dbName := "donation_system" },
          collName := "donations" } :=
  getDonationCollection_returns_despite_index_failures wIdxAllFail envFull
    "mongodb://localhost" emptyRemote rfl rfl rfl rfl rfl

/-- Claim C3: against an initially empty database, with every driver call
succeeding, the first `getDonationCollection` call lists, creates the
collection and creates each of the eight indexes exactly once, while the
second call — run from the state and remote the first call left behind — only
lists the collection, observes it present, returns the same handle, and
performs no `createCollection` and no `createIndex` call. -/
theorem getDonationCollection_idempotent
    (w : World) (env : Env) (u : String)
    (huri : env.MONGODB_URI = some u)
    (hconn : w.connectOk 0 = true) (hping : w.pingOk 0 = true)
    (hlive : w.isConnected 0 = true)
    (hlist : w.listCollectionsOk = true)
    (hcoll : w.createCollectionOk = true)
    (hidx : ∀ n sp, w.indexOk n sp = true) :
    getDonationCollection w env initState emptyRemote =
      (Except.ok
          { db := { clientId := 0,
                    dbName := env.DATABASE_NAME.getD "donation_system" },
            collName := env.COLLECTION_NAME.getD "donations" },
        { cachedClient := some 0,
          cachedDb := some
            { clientId := 0,
              dbName := env.DATABASE_NAME.getD "donation_system" },
          nextClientId := 1 },
        { collections := [env.COLLECTION_NAME.getD "donations"],
          indexes := indexSpecs.map
            (fun sp => (env.COLLECTION_NAME.getD "donations", sp)) },
        [NetEvent.connect 0, NetEvent.ping 0,
         NetEvent.listCollections (env.COLLECTION_NAME.getD "donations"),
         NetEvent.createCollection (env.COLLECTION_NAME.getD "donations")] ++
          indexSpecs.map
            (NetEvent.createIndex (env.COLLECTION_NAME.getD "donations"))) ∧
    getDonationCollection w env
        { cachedClient := some 0,
          cachedDb := some
            { clientId := 0,
              dbName := env.DATABASE_NAME.getD "donation_system" },
          nextClientId := 1 }
        { collections := [env.COLLECTION_NAME.getD "donations"],
          indexes := indexSpecs.map
            (fun sp => (env.COLLECTION_NAME.getD "donations", sp)) } =
      (Except.ok
          { db := { clientId := 0,
                    dbName := env.DATABASE_NAME.getD "donation_system" },
            collName := env.COLLECTION_NAME.getD "donations" },
        { cachedClient := some 0,
          cachedDb := some
            { clientId := 0,
              dbName := env.DATABASE_NAME.getD "donation_system" },
          nextClientId := 1 },
        { collections := [env.COLLECTION_NAME.getD "donations"],
          indexes := indexSpecs.map
            (fun sp => (env.COLLECTION_NAME.getD "donations", sp)) },
        [NetEvent.listCollections (env.COLLECTION_NAME.getD "donations")]) := by
  have hcl : getMongoClient w env initState =
      (Except.ok 0,
        { cachedClient := some 0, cachedDb := none, nextClientId := 1 },
        [NetEvent.connect 0, NetEvent.ping 0]) := by
    simp [getMongoClient, getMongoClientFresh, initState, huri, hconn, hping]
  have hdb : getDatabase w env initState =
      (Except.ok
          { clientId := 0,
            dbName := env.DATABASE_NAME.getD "donation_system" },
        { cachedClient := some 0,
          cachedDb := some
            { clientId := 0,
              dbName := env.DATABASE_NAME.getD "donation_system" },
          nextClientId := 1 },
        [NetEvent.connect 0, NetEvent.ping 0]) := by
    simp [getDatabase, hcl]
  constructor
  · have hrun := runCreateIndexes_all_ok w (env.COLLECTION_NAME.getD "donations")
      indexSpecs
      { collections := [env.COLLECTION_NAME.getD "donations"], indexes := [] }
      (fun sp _ => hidx _ sp)
    simp [getDonationCollection, hdb, hlist, hcoll, emptyRemote,
      createIndexes, hrun]
  · have hcl2 : getMongoClient w env
        { cachedClient := some 0,
          cachedDb := some
            { clientId := 0,
              dbName := env.DATABASE_NAME.getD "donation_system" },
          nextClientId := 1 } =
        (Except.ok 0,
          { cachedClient := some 0,
            cachedDb := some
              { clientId := 0,
                dbName := env.DATABASE_NAME.getD "donation_system" },
            nextClientId := 1 }, []) :=
      getMongoClient_cached_live w env _ 0 rfl hlive
    have hdb2 : getDatabase w env
        { cachedClient := some 0,
          cachedDb := some
            { clientId := 0,
              dbName := env.DATABASE_NAME.getD "donation_system" },
          nextClientId := 1 } =
        (Except.ok
            { clientId := 0,
              dbName := env.DATABASE_NAME.getD "donation_system" },
          { cachedClient := some 0,
            cachedDb := some
              { clientId := 0,
                dbName := env.DATABASE_NAME.getD "donation_system" },
            nextClientId := 1 }, []) := by
      simp [getDatabase, hcl2]
    simp [getDonationCollection, hdb2, hlist]

/-- Witness for C3 at a concrete world and configuration. -/
theorem getDonationCollection_idempotent_witness :
    getDonationCollection wAll envFull initState emptyRemote =
      (Except.ok
          { db := { clientId := 0, dbName := "donation_system" },
            collName := "donations" },
        { cachedClient := some 0,
          cachedDb := some { clientId := 0, dbName := "donation_system" },
          nextClientId := 1 },
        { collections := ["donations"],
          indexes := indexSpecs.map (fun sp => ("donations", sp)) },
        [NetEvent.connect 0, NetEvent.ping 0,
         NetEvent.listCollections "donations",
         NetEvent.createCollection "donations"] ++
          indexSpecs.map (NetEvent.createIndex "donations")) ∧
    getDonationCollection wAll envFull
        { cachedClient := some 0,
          cachedDb := some { clientId := 0, dbName := "donation_system" },
          nextClientId := 1 }
        { collections := ["donations"],
          indexes := indexSpecs.map (fun sp => ("donations", sp)) } =
      (Except.ok
          { db := { clientId := 0, dbName := "donation_system" },
            collName := "donations" },
        { cachedClient := some 0,
          cachedDb := some { clientId := 0, dbName := "donation_system" },
          nextClientId := 1 },
        { collections := ["donations"],
          indexes := indexSpecs.map (fun sp => ("donations", sp)) },
        [NetEvent.listCollections "donations"]) :=
  getDonationCollection_idempotent wAll envFull "mongodb://localhost"
    rfl rfl rfl rfl rfl rfl (fun _ _ => rfl)

end Mongodb
